import Mathlib

/-!
Verification of the lambda7 repository: pi-algebra mass formulas for baryons,
the coefficient-sharing tree, the diff formatter and the correction-string
parser.  Definitions are shallow embeddings of `src/data/common.py`,
`src/data/baryons.py`, `src/data/cycle.py`, `src/data/magnetic.py` and
`src/generate_baryon_tree.py`.  Machine floats are modelled by real numbers,
table constants by rationals.
-/

set_option maxRecDepth 4000

/-! ## Constants from `src/data/common.py` -/

noncomputable def PI : ℝ := Real.pi

def M_E : ℝ := 0.51099895

noncomputable def E_NEG_PI : ℝ := Real.exp (-PI)

noncomputable def PI2 : ℝ := PI ^ 2
noncomputable def PI3 : ℝ := PI ^ 3
noncomputable def PI4 : ℝ := PI ^ 4
noncomputable def PI5 : ℝ := PI ^ 5
noncomputable def PI6 : ℝ := PI ^ 6
noncomputable def PI7 : ℝ := PI ^ 7

noncomputable def Q3_PI : ℝ := PI2 + PI + 1

/-- Modelled from the spec: the golden ratio φ.  The name `PHI` is referenced
by `src/data/baryons.py` (the Λ correction `φ/5`) but is defined nowhere in
`src/data/common.py`; the spec lists "golden ratio" among the correction
expression forms. -/
noncomputable def PHI : ℝ := (1 + Real.sqrt 5) / 2

/-- Modelled from the spec: ln π.  The name `LN_PI` is referenced by
`src/data/baryons.py` (the Ωc*⁰ correction `-ln π - 1/2`) but is defined
nowhere in `src/data/common.py`; the spec lists "ln π" among the correction
expression forms. -/
noncomputable def LN_PI : ℝ := Real.log PI

/-! ## Python module-import semantics for claim C2

`src/data/baryons.py` begins with
`from .common import PI, M_E, E_NEG_PI, PI2, PI3, PI4, PI5, PI6, PI7, Q3_PI, LN_PI, PHI`
and, on `ImportError`, retries the same name list as an absolute import of the
same module.  A Python `from m import a, b, ...` raises `ImportError` naming
the first listed name that the module `m` does not define. -/

/-- The module-level names bound by executing `src/data/common.py`. -/
def commonModuleNames : List String :=
  ["math", "PI", "M_E", "E_NEG_PI", "PI2", "PI3", "PI4", "PI5", "PI6", "PI7", "Q3_PI"]

/-- The names requested by the `from ... import` statement at the top of
`src/data/baryons.py` (both the relative and the absolute variant request the
same list). -/
def baryonsImportNames : List String :=
  ["PI", "M_E", "E_NEG_PI", "PI2", "PI3", "PI4", "PI5", "PI6", "PI7", "Q3_PI", "LN_PI", "PHI"]

/-- `from m import names`: succeeds iff every requested name is defined by the
module; otherwise it raises `ImportError` naming the first missing name. -/
def fromImport (moduleNames names : List String) : Except String Unit :=
  match names.find? (fun n => !moduleNames.contains n) with
  | some missing => .error missing
  | none => .ok ()

/-- Loading `src/data/baryons.py`: try the relative import; on `ImportError`
fall back to the absolute import of the same `common` module (the
`try/except ImportError` at lines 25-28). -/
def loadBaryonsModule : Except String Unit :=
  match fromImport commonModuleNames baryonsImportNames with
  | .ok _ => .ok ()
  | .error _ => fromImport commonModuleNames baryonsImportNames

/-! ## The `Particle` dataclass of `src/data/baryons.py` -/

structure Particle where
  name : String
  symbol : String
  latex_symbol : String
  mass_exp : ℝ
  node_id : String
  c6 : ℚ := 0
  c5 : ℚ := 0
  c4 : ℚ := 0
  c3 : ℚ := 0
  c2 : ℚ := 0
  correction_func : Option ℝ := none
  correction_latex : String := ""
  spin : String := ""
  charge : ℤ := 0
  strangeness : ℤ := 0
  multiplet : String := ""
  quarks : String := ""

/-- `Particle.mass_base`: base mass from the polynomial (in m_e). -/
noncomputable def Particle.mass_base (p : Particle) : ℝ :=
  (p.c6 : ℝ) * PI6 + (p.c5 : ℝ) * PI5 + (p.c4 : ℝ) * PI4 + (p.c3 : ℝ) * PI3 + (p.c2 : ℝ) * PI2

/-- `Particle.correction`: the correction term, 0 when no correction function
is attached. -/
noncomputable def Particle.correction (p : Particle) : ℝ :=
  p.correction_func.getD 0

/-- `Particle.mass_me`: total mass in electron masses. -/
noncomputable def Particle.mass_me (p : Particle) : ℝ :=
  p.mass_base + p.correction

/-- `Particle.mass_mev`: calculated mass in MeV. -/
noncomputable def Particle.mass_mev (p : Particle) : ℝ :=
  p.mass_me * M_E

/-- `Particle.error_mev`. -/
noncomputable def Particle.error_mev (p : Particle) : ℝ :=
  p.mass_mev - p.mass_exp

/-- `Particle.error_kev`. -/
noncomputable def Particle.error_kev (p : Particle) : ℝ :=
  p.error_mev * 1000

/-- `Particle.error_ev`. -/
noncomputable def Particle.error_ev (p : Particle) : ℝ :=
  p.error_mev * 1e6

/-- `Particle.error_ppm`. -/
noncomputable def Particle.error_ppm (p : Particle) : ℝ :=
  1e6 * p.error_mev / p.mass_exp

/-! ## Claim theorems (first batch) -/

/-- Claim C1: for every particle, `mass_me = c6·π⁶ + c5·π⁵ + c4·π⁴ + c3·π³ +
c2·π² + correction` and `mass_mev = mass_me × M_E` with `M_E = 0.51099895`.
In the real-number semantics of the embedding the identities are exact. -/
theorem mass_invariant (p : Particle) :
    p.mass_me =
      (p.c6 : ℝ) * Real.pi ^ 6 + (p.c5 : ℝ) * Real.pi ^ 5 + (p.c4 : ℝ) * Real.pi ^ 4 +
        (p.c3 : ℝ) * Real.pi ^ 3 + (p.c2 : ℝ) * Real.pi ^ 2 + p.correction ∧
      p.mass_mev = p.mass_me * M_E ∧ M_E = 0.51099895 := by
  refine ⟨?_, rfl, rfl⟩
  simp [Particle.mass_me, Particle.mass_base, PI6, PI5, PI4, PI3, PI2, PI]

/-- Claim C2: loading the particle table always fails.  Both the relative and
the absolute import of `src/data/baryons.py` request `LN_PI` (and `PHI`) from
the `common` module, which defines neither, so module load raises
`ImportError` for the first missing name, `LN_PI`, before any particle
definition executes. -/
theorem baryons_import_always_fails :
    loadBaryonsModule = .error "LN_PI" ∧
      commonModuleNames.contains "LN_PI" = false ∧
      commonModuleNames.contains "PHI" = false := by
  refine ⟨rfl, rfl, rfl⟩

/-- Claim C7: for every particle, `error_mev = mass_mev − mass_exp`,
`error_kev = error_mev × 1000`, `error_ev = error_mev × 1e6` and
`error_ppm = 1e6 × error_mev / mass_exp`. -/
theorem error_consistency (p : Particle) :
    p.error_mev = p.mass_mev - p.mass_exp ∧
      p.error_kev = p.error_mev * 1000 ∧
      p.error_ev = p.error_mev * 1000000 ∧
      p.error_ppm = 1000000 * p.error_mev / p.mass_exp := by
  refine ⟨rfl, rfl, ?_, ?_⟩
  · show p.error_mev * 1e6 = p.error_mev * 1000000
    norm_num
  · show 1e6 * p.error_mev / p.mass_exp = 1000000 * p.error_mev / p.mass_exp
    norm_num


/-! ## Correction functions of `src/data/baryons.py` (values in m_e) -/

noncomputable def proton_corr : ℝ := (4/5) * E_NEG_PI
noncomputable def neutron_corr : ℝ := 8 / PI
noncomputable def lambda_corr : ℝ := PHI / 5
noncomputable def sigma_plus_corr : ℝ := -2 / PI
noncomputable def sigma_zero_corr : ℝ := -4
noncomputable def sigma_minus_corr : ℝ := -23 / 5
noncomputable def xi_zero_corr : ℝ := -PI - 1 / PI
noncomputable def xi_minus_corr : ℝ := 1 / (5 * PI)
noncomputable def delta_corr : ℝ := (1/5) * (PI - 2 + 4 * E_NEG_PI)
noncomputable def sigma_star_plus_corr : ℝ := (1/5) * (PI - 7 - E_NEG_PI)
noncomputable def sigma_star_zero_corr : ℝ := 1
noncomputable def sigma_star_minus_corr : ℝ := -2
noncomputable def xi_star_zero_corr : ℝ := -(1/5) * (5 * PI + 4)
noncomputable def xi_star_minus_corr : ℝ := (1/5) * (4 * PI - 1)
noncomputable def omega_corr : ℝ := -(6/5) * (PI - E_NEG_PI)
noncomputable def lambda_c_corr : ℝ := -23/5
noncomputable def sigma_c_pp_corr : ℝ := -(1/5) * PI + 3/5
noncomputable def sigma_c_p_corr : ℝ := (3/5) * PI - 4
noncomputable def sigma_c_0_corr : ℝ := PI - 18/5
noncomputable def sigma_c_star_pp_corr : ℝ := -PI + 4/5
noncomputable def sigma_c_star_p_corr : ℝ := -(4/5) * PI - 8/5
noncomputable def sigma_c_star_0_corr : ℝ := -11/5
noncomputable def xi_c_p_corr : ℝ := (7/5) * PI - 6/5
noncomputable def xi_c_0_corr : ℝ := -PI + 9/5
noncomputable def xi_c_star_p_corr : ℝ := (4/5) * PI
noncomputable def xi_c_star_0_corr : ℝ := (13/10) * PI
noncomputable def omega_c_corr : ℝ := -(4/5) * PI + 4/5
noncomputable def omega_c_star_corr : ℝ := -LN_PI - 1/2
noncomputable def xi_cc_pp_corr : ℝ := PI / 6
noncomputable def lambda_b_corr : ℝ := PI / 10
noncomputable def sigma_b_plus_corr : ℝ := 1/30
noncomputable def sigma_b_minus_corr : ℝ := 28/5
noncomputable def xi_b_zero_corr : ℝ := 19/10
noncomputable def xi_b_minus_corr : ℝ := 2
noncomputable def omega_b_corr : ℝ := -3/2
noncomputable def sigma_b_star_plus_corr : ℝ := -7/9
noncomputable def sigma_b_star_minus_corr : ℝ := 21/10

/-! ## Particle tables of `src/data/baryons.py` -/

noncomputable def P_proton : Particle :=
  { name := "Proton",
    symbol := "p",
    latex_symbol := "p",
    mass_exp := 938.27208816,
    node_id := "p",
    c5 := 6,
    correction_func := some proton_corr,
    correction_latex := "\\frac\x7b4\x7d\x7b5\x7de^\x7b-\\pi\x7d",
    spin := "1/2",
    charge := 1,
    strangeness := 0,
    multiplet := "octet",
    quarks := "uud" }

noncomputable def P_neutron : Particle :=
  { name := "Neutron",
    symbol := "n",
    latex_symbol := "n",
    mass_exp := 939.56542052,
    node_id := "n",
    c5 := 6,
    correction_func := some neutron_corr,
    correction_latex := "\\frac\x7b8\x7d\x7b\\pi\x7d",
    spin := "1/2",
    charge := 0,
    strangeness := 0,
    multiplet := "octet",
    quarks := "udd" }

noncomputable def P_Lambda : Particle :=
  { name := "Lambda",
    symbol := "Λ",
    latex_symbol := "\\Lambda",
    mass_exp := 1115.683,
    node_id := "L0",
    c5 := 7,
    c3 := 1,
    c2 := 1,
    correction_func := some lambda_corr,
    correction_latex := "\\frac\x7b\\varphi\x7d\x7b5\x7d",
    spin := "1/2",
    charge := 0,
    strangeness := -1,
    multiplet := "octet",
    quarks := "uds" }

noncomputable def P_Sigma_plus : Particle :=
  { name := "Sigma+",
    symbol := "Σ⁺",
    latex_symbol := "\\Sigma^+",
    mass_exp := 1189.37,
    node_id := "S_plus",
    c5 := 7,
    c3 := 6,
    correction_func := some sigma_plus_corr,
    correction_latex := "-\\frac\x7b2\x7d\x7b\\pi\x7d",
    spin := "1/2",
    charge := 1,
    strangeness := -1,
    multiplet := "octet",
    quarks := "uus" }

noncomputable def P_Sigma_zero : Particle :=
  { name := "Sigma0",
    symbol := "Σ⁰",
    latex_symbol := "\\Sigma^0",
    mass_exp := 1192.642,
    node_id := "S_zero",
    c5 := 7,
    c3 := 6,
    c2 := 1,
    correction_func := some sigma_zero_corr,
    correction_latex := "-4",
    spin := "1/2",
    charge := 0,
    strangeness := -1,
    multiplet := "octet",
    quarks := "uds" }

noncomputable def P_Sigma_minus : Particle :=
  { name := "Sigma-",
    symbol := "Σ⁻",
    latex_symbol := "\\Sigma^-",
    mass_exp := 1197.449,
    node_id := "S_minus",
    c5 := 7,
    c3 := 6,
    c2 := 2,
    correction_func := some sigma_minus_corr,
    correction_latex := "-\\frac\x7b23\x7d\x7b5\x7d",
    spin := "1/2",
    charge := -1,
    strangeness := -1,
    multiplet := "octet",
    quarks := "dds" }

noncomputable def P_Xi_zero : Particle :=
  { name := "Xi0",
    symbol := "Ξ⁰",
    latex_symbol := "\\Xi^0",
    mass_exp := 1314.86,
    node_id := "X_zero",
    c5 := 8,
    c4 := 1,
    c3 := 1,
    correction_func := some xi_zero_corr,
    correction_latex := "-\\pi - \\frac\x7b1\x7d\x7b\\pi\x7d",
    spin := "1/2",
    charge := 0,
    strangeness := -2,
    multiplet := "octet",
    quarks := "uss" }

noncomputable def P_Xi_minus : Particle :=
  { name := "Xi-",
    symbol := "Ξ⁻",
    latex_symbol := "\\Xi^-",
    mass_exp := 1321.71,
    node_id := "X_minus",
    c5 := 8,
    c4 := 1,
    c3 := 1,
    c2 := 1,
    correction_func := some xi_minus_corr,
    correction_latex := "\\frac\x7b1\x7d\x7b5\\pi\x7d",
    spin := "1/2",
    charge := -1,
    strangeness := -2,
    multiplet := "octet",
    quarks := "dss" }

noncomputable def P_Delta : Particle :=
  { name := "Delta",
    symbol := "Δ",
    latex_symbol := "\\Delta",
    mass_exp := 1232.0,
    node_id := "D",
    c5 := 6,
    c4 := 6,
    c2 := -1,
    correction_func := some delta_corr,
    correction_latex := "\\frac\x7b1\x7d\x7b5\x7d\\left(\\pi - 2 + 4e^\x7b-\\pi\x7d\\right)",
    spin := "3/2",
    charge := 0,
    strangeness := 0,
    multiplet := "decuplet",
    quarks := "uud" }

noncomputable def P_Sigma_star_plus : Particle :=
  { name := "Sigma*+",
    symbol := "Σ*⁺",
    latex_symbol := "\\Sigma^\x7b*+\x7d",
    mass_exp := 1382.8,
    node_id := "Ss_plus",
    c5 := 7,
    c4 := 6,
    c2 := -2,
    correction_func := some sigma_star_plus_corr,
    correction_latex := "\\frac\x7b1\x7d\x7b5\x7d\\left(\\pi - 7 - e^\x7b-\\pi\x7d\\right)",
    spin := "3/2",
    charge := 1,
    strangeness := -1,
    multiplet := "decuplet",
    quarks := "uus" }

noncomputable def P_Sigma_star_zero : Particle :=
  { name := "Sigma*0",
    symbol := "Σ*⁰",
    latex_symbol := "\\Sigma^\x7b*0\x7d",
    mass_exp := 1383.7,
    node_id := "Ss_zero",
    c5 := 7,
    c4 := 6,
    c2 := -2,
    correction_func := some sigma_star_zero_corr,
    correction_latex := "+1",
    spin := "3/2",
    charge := 0,
    strangeness := -1,
    multiplet := "decuplet",
    quarks := "uds" }

noncomputable def P_Sigma_star_minus : Particle :=
  { name := "Sigma*-",
    symbol := "Σ*⁻",
    latex_symbol := "\\Sigma^\x7b*-\x7d",
    mass_exp := 1387.2,
    node_id := "Ss_minus",
    c5 := 7,
    c4 := 6,
    c2 := -1,
    correction_func := some sigma_star_minus_corr,
    correction_latex := "-2",
    spin := "3/2",
    charge := -1,
    strangeness := -1,
    multiplet := "decuplet",
    quarks := "dds" }

noncomputable def P_Xi_star_zero : Particle :=
  { name := "Xi*0",
    symbol := "Ξ*⁰",
    latex_symbol := "\\Xi^\x7b*0\x7d",
    mass_exp := 1531.8,
    node_id := "Xs_zero",
    c5 := 8,
    c4 := 6,
    c3 := -1,
    correction_func := some xi_star_zero_corr,
    correction_latex := "-\\frac\x7b1\x7d\x7b5\x7d(5\\pi + 4)",
    spin := "3/2",
    charge := 0,
    strangeness := -2,
    multiplet := "decuplet",
    quarks := "uss" }

noncomputable def P_Xi_star_minus : Particle :=
  { name := "Xi*-",
    symbol := "Ξ*⁻",
    latex_symbol := "\\Xi^\x7b*-\x7d",
    mass_exp := 1535.0,
    node_id := "Xs_minus",
    c5 := 8,
    c4 := 6,
    c3 := -1,
    correction_func := some xi_star_minus_corr,
    correction_latex := "\\frac\x7b1\x7d\x7b5\x7d(4\\pi - 1)",
    spin := "3/2",
    charge := -1,
    strangeness := -2,
    multiplet := "decuplet",
    quarks := "dss" }

noncomputable def P_Omega : Particle :=
  { name := "Omega",
    symbol := "Ω⁻",
    latex_symbol := "\\Omega^-",
    mass_exp := 1672.45,
    node_id := "Om",
    c5 := 9,
    c4 := 6,
    c3 := -2,
    correction_func := some omega_corr,
    correction_latex := "-\\frac\x7b6\x7d\x7b5\x7d\\left(\\pi - e^\x7b-\\pi\x7d\\right)",
    spin := "3/2",
    charge := -1,
    strangeness := -3,
    multiplet := "decuplet",
    quarks := "sss" }

noncomputable def P_Lambda_c : Particle :=
  { name := "Lambda_c+",
    symbol := "Λc⁺",
    latex_symbol := "\\Lambda_c^+",
    mass_exp := 2286.46,
    node_id := "Lc",
    c5 := 14,
    c4 := 2,
    correction_func := some lambda_c_corr,
    correction_latex := "-\\frac\x7b23\x7d\x7b5\x7d",
    spin := "1/2",
    charge := 1,
    strangeness := 0,
    multiplet := "charm-octet",
    quarks := "udc" }

noncomputable def P_Sigma_c_pp : Particle :=
  { name := "Sigma_c++",
    symbol := "Σc⁺⁺",
    latex_symbol := "\\Sigma_c^\x7b++\x7d",
    mass_exp := 2453.97,
    node_id := "Sc_pp",
    c5 := 14,
    c4 := 5,
    c3 := 1,
    correction_func := some sigma_c_pp_corr,
    correction_latex := "-\\frac\x7b\\pi\x7d\x7b5\x7d + \\frac\x7b3\x7d\x7b5\x7d",
    spin := "1/2",
    charge := 2,
    strangeness := 0,
    multiplet := "charm-octet",
    quarks := "uuc" }

noncomputable def P_Sigma_c_plus : Particle :=
  { name := "Sigma_c+",
    symbol := "Σc⁺",
    latex_symbol := "\\Sigma_c^+",
    mass_exp := 2452.9,
    node_id := "Sc_plus",
    c5 := 14,
    c4 := 5,
    c3 := 1,
    correction_func := some sigma_c_p_corr,
    correction_latex := "\\frac\x7b3\\pi\x7d\x7b5\x7d - 4",
    spin := "1/2",
    charge := 1,
    strangeness := 0,
    multiplet := "charm-octet",
    quarks := "udc" }

noncomputable def P_Sigma_c_zero : Particle :=
  { name := "Sigma_c0",
    symbol := "Σc⁰",
    latex_symbol := "\\Sigma_c^0",
    mass_exp := 2453.75,
    node_id := "Sc_zero",
    c5 := 14,
    c4 := 5,
    c3 := 1,
    correction_func := some sigma_c_0_corr,
    correction_latex := "\\pi - \\frac\x7b18\x7d\x7b5\x7d",
    spin := "1/2",
    charge := 0,
    strangeness := 0,
    multiplet := "charm-octet",
    quarks := "ddc" }

noncomputable def P_Xi_c_plus : Particle :=
  { name := "Xi_c+",
    symbol := "Ξc⁺",
    latex_symbol := "\\Xi_c^+",
    mass_exp := 2467.71,
    node_id := "Xc_plus",
    c5 := 15,
    c4 := 2,
    c3 := 1,
    c2 := 1,
    correction_func := some xi_c_p_corr,
    correction_latex := "\\frac\x7b7\\pi\x7d\x7b5\x7d - \\frac\x7b6\x7d\x7b5\x7d",
    spin := "1/2",
    charge := 1,
    strangeness := -1,
    multiplet := "charm-octet",
    quarks := "usc" }

noncomputable def P_Xi_c_zero : Particle :=
  { name := "Xi_c0",
    symbol := "Ξc⁰",
    latex_symbol := "\\Xi_c^0",
    mass_exp := 2470.44,
    node_id := "Xc_zero",
    c5 := 15,
    c4 := 2,
    c3 := 1,
    c2 := 2,
    correction_func := some xi_c_0_corr,
    correction_latex := "-\\pi + \\frac\x7b9\x7d\x7b5\x7d",
    spin := "1/2",
    charge := 0,
    strangeness := -1,
    multiplet := "charm-octet",
    quarks := "dsc" }

noncomputable def P_Omega_c : Particle :=
  { name := "Omega_c0",
    symbol := "Ωc⁰",
    latex_symbol := "\\Omega_c^0",
    mass_exp := 2695.2,
    node_id := "Oc_zero",
    c5 := 16,
    c4 := 4,
    c2 := -1,
    correction_func := some omega_c_corr,
    correction_latex := "-\\frac\x7b4\\pi\x7d\x7b5\x7d + \\frac\x7b4\x7d\x7b5\x7d",
    spin := "1/2",
    charge := 0,
    strangeness := -2,
    multiplet := "charm-octet",
    quarks := "ssc" }

noncomputable def P_Sigma_c_star_pp : Particle :=
  { name := "Sigma_c*++",
    symbol := "Σc*⁺⁺",
    latex_symbol := "\\Sigma_c^\x7b*++\x7d",
    mass_exp := 2518.41,
    node_id := "Scs_pp",
    c5 := 14,
    c4 := 6,
    c3 := 2,
    correction_func := some sigma_c_star_pp_corr,
    correction_latex := "-\\pi + \\frac\x7b4\x7d\x7b5\x7d",
    spin := "3/2",
    charge := 2,
    strangeness := 0,
    multiplet := "charm-decuplet",
    quarks := "uuc" }

noncomputable def P_Sigma_c_star_plus : Particle :=
  { name := "Sigma_c*+",
    symbol := "Σc*⁺",
    latex_symbol := "\\Sigma_c^\x7b*+\x7d",
    mass_exp := 2517.5,
    node_id := "Scs_plus",
    c5 := 14,
    c4 := 6,
    c3 := 2,
    correction_func := some sigma_c_star_p_corr,
    correction_latex := "-\\frac\x7b4\\pi\x7d\x7b5\x7d - \\frac\x7b8\x7d\x7b5\x7d",
    spin := "3/2",
    charge := 1,
    strangeness := 0,
    multiplet := "charm-decuplet",
    quarks := "udc" }

noncomputable def P_Sigma_c_star_zero : Particle :=
  { name := "Sigma_c*0",
    symbol := "Σc*⁰",
    latex_symbol := "\\Sigma_c^\x7b*0\x7d",
    mass_exp := 2518.48,
    node_id := "Scs_zero",
    c5 := 14,
    c4 := 6,
    c3 := 2,
    correction_func := some sigma_c_star_0_corr,
    correction_latex := "-\\frac\x7b11\x7d\x7b5\x7d",
    spin := "3/2",
    charge := 0,
    strangeness := 0,
    multiplet := "charm-decuplet",
    quarks := "ddc" }

noncomputable def P_Xi_c_star_plus : Particle :=
  { name := "Xi_c*+",
    symbol := "Ξc*⁺",
    latex_symbol := "\\Xi_c^\x7b*+\x7d",
    mass_exp := 2645.57,
    node_id := "Xcs_plus",
    c5 := 15,
    c4 := 6,
    correction_func := some xi_c_star_p_corr,
    correction_latex := "\\frac\x7b4\\pi\x7d\x7b5\x7d",
    spin := "3/2",
    charge := 1,
    strangeness := -1,
    multiplet := "charm-decuplet",
    quarks := "usc" }

noncomputable def P_Xi_c_star_zero : Particle :=
  { name := "Xi_c*0",
    symbol := "Ξc*⁰",
    latex_symbol := "\\Xi_c^\x7b*0\x7d",
    mass_exp := 2646.38,
    node_id := "Xcs_zero",
    c5 := 15,
    c4 := 6,
    correction_func := some xi_c_star_0_corr,
    correction_latex := "\\frac\x7b13\\pi\x7d\x7b10\x7d",
    spin := "3/2",
    charge := 0,
    strangeness := -1,
    multiplet := "charm-decuplet",
    quarks := "dsc" }

noncomputable def P_Omega_c_star : Particle :=
  { name := "Omega_c*0",
    symbol := "Ωc*⁰",
    latex_symbol := "\\Omega_c^\x7b*0\x7d",
    mass_exp := 2765.9,
    node_id := "Ocs_zero",
    c5 := 16,
    c4 := 5,
    c3 := 1,
    correction_func := some omega_c_star_corr,
    correction_latex := "-\\ln\\pi - \\frac\x7b1\x7d\x7b2\x7d",
    spin := "3/2",
    charge := 0,
    strangeness := -2,
    multiplet := "charm-decuplet",
    quarks := "ssc" }

noncomputable def P_Xi_cc_pp : Particle :=
  { name := "Xi_cc++",
    symbol := "Ξcc⁺⁺",
    latex_symbol := "\\Xi_\x7bcc\x7d^\x7b++\x7d",
    mass_exp := 3621.55,
    node_id := "Xcc",
    c5 := 22,
    c4 := 3,
    c3 := 2,
    correction_func := some xi_cc_pp_corr,
    correction_latex := "\\frac\x7b\\pi\x7d\x7b6\x7d",
    spin := "1/2",
    charge := 2,
    strangeness := 0,
    multiplet := "double-charm",
    quarks := "ucc" }

noncomputable def P_Lambda_b : Particle :=
  { name := "Lambda_b0",
    symbol := "Λb⁰",
    latex_symbol := "\\Lambda_b^0",
    mass_exp := 5619.6,
    node_id := "Lb",
    c5 := 36,
    c2 := -2,
    correction_func := some lambda_b_corr,
    correction_latex := "\\frac\x7b\\pi\x7d\x7b10\x7d",
    spin := "1/2",
    charge := 0,
    strangeness := 0,
    multiplet := "bottom-octet",
    quarks := "udb" }

noncomputable def P_Sigma_b_plus : Particle :=
  { name := "Sigma_b+",
    symbol := "Σb⁺",
    latex_symbol := "\\Sigma_b^+",
    mass_exp := 5810.56,
    node_id := "Sb_plus",
    c5 := 36,
    c4 := 3,
    c3 := 2,
    correction_func := some sigma_b_plus_corr,
    correction_latex := "\\frac\x7b1\x7d\x7b30\x7d",
    spin := "1/2",
    charge := 1,
    strangeness := 0,
    multiplet := "bottom-octet",
    quarks := "uub" }

noncomputable def P_Sigma_b_minus : Particle :=
  { name := "Sigma_b-",
    symbol := "Σb⁻",
    latex_symbol := "\\Sigma_b^-",
    mass_exp := 5815.64,
    node_id := "Sb_minus",
    c5 := 36,
    c4 := 4,
    c3 := -1,
    correction_func := some sigma_b_minus_corr,
    correction_latex := "\\frac\x7b28\x7d\x7b5\x7d",
    spin := "1/2",
    charge := -1,
    strangeness := 0,
    multiplet := "bottom-octet",
    quarks := "ddb" }

noncomputable def P_Sigma_b_star_plus : Particle :=
  { name := "Sigma_b*+",
    symbol := "Σb*⁺",
    latex_symbol := "\\Sigma_b^\x7b*+\x7d",
    mass_exp := 5830.32,
    node_id := "Sbs_plus",
    c5 := 36,
    c4 := 3,
    c3 := 2,
    c2 := 4,
    correction_func := some sigma_b_star_plus_corr,
    correction_latex := "-\\frac\x7b7\x7d\x7b9\x7d",
    spin := "3/2",
    charge := 1,
    strangeness := 0,
    multiplet := "bottom-decuplet",
    quarks := "uub" }

noncomputable def P_Sigma_b_star_minus : Particle :=
  { name := "Sigma_b*-",
    symbol := "Σb*⁻",
    latex_symbol := "\\Sigma_b^\x7b*-\x7d",
    mass_exp := 5834.74,
    node_id := "Sbs_minus",
    c5 := 36,
    c4 := 4,
    c2 := 1,
    correction_func := some sigma_b_star_minus_corr,
    correction_latex := "\\frac\x7b21\x7d\x7b10\x7d",
    spin := "3/2",
    charge := -1,
    strangeness := 0,
    multiplet := "bottom-decuplet",
    quarks := "ddb" }

noncomputable def P_Xi_b_zero : Particle :=
  { name := "Xi_b0",
    symbol := "Ξb⁰",
    latex_symbol := "\\Xi_b^0",
    mass_exp := 5791.9,
    node_id := "Xb_zero",
    c5 := 37,
    c2 := 1,
    correction_func := some xi_b_zero_corr,
    correction_latex := "\\frac\x7b19\x7d\x7b10\x7d",
    spin := "1/2",
    charge := 0,
    strangeness := -1,
    multiplet := "bottom-octet",
    quarks := "usb" }

noncomputable def P_Xi_b_minus : Particle :=
  { name := "Xi_b-",
    symbol := "Ξb⁻",
    latex_symbol := "\\Xi_b^-",
    mass_exp := 5797.0,
    node_id := "Xb_minus",
    c5 := 37,
    c2 := 2,
    correction_func := some xi_b_minus_corr,
    correction_latex := "2",
    spin := "1/2",
    charge := -1,
    strangeness := -1,
    multiplet := "bottom-octet",
    quarks := "dsb" }

noncomputable def P_Omega_b : Particle :=
  { name := "Omega_b-",
    symbol := "Ωb⁻",
    latex_symbol := "\\Omega_b^-",
    mass_exp := 6046.1,
    node_id := "Ob",
    c5 := 38,
    c4 := 2,
    c2 := 1,
    correction_func := some omega_b_corr,
    correction_latex := "-\\frac\x7b3\x7d\x7b2\x7d",
    spin := "1/2",
    charge := -1,
    strangeness := -2,
    multiplet := "bottom-octet",
    quarks := "ssb" }

noncomputable def PARTICLES_list : List (String × Particle) :=
  [("proton", P_proton),
   ("neutron", P_neutron),
   ("Lambda", P_Lambda),
   ("Sigma_plus", P_Sigma_plus),
   ("Sigma_zero", P_Sigma_zero),
   ("Sigma_minus", P_Sigma_minus),
   ("Xi_zero", P_Xi_zero),
   ("Xi_minus", P_Xi_minus),
   ("Delta", P_Delta),
   ("Sigma_star_plus", P_Sigma_star_plus),
   ("Sigma_star_zero", P_Sigma_star_zero),
   ("Sigma_star_minus", P_Sigma_star_minus),
   ("Xi_star_zero", P_Xi_star_zero),
   ("Xi_star_minus", P_Xi_star_minus),
   ("Omega", P_Omega)]

noncomputable def CHARM_PARTICLES_list : List (String × Particle) :=
  [("Lambda_c", P_Lambda_c),
   ("Sigma_c_pp", P_Sigma_c_pp),
   ("Sigma_c_plus", P_Sigma_c_plus),
   ("Sigma_c_zero", P_Sigma_c_zero),
   ("Xi_c_plus", P_Xi_c_plus),
   ("Xi_c_zero", P_Xi_c_zero),
   ("Omega_c", P_Omega_c),
   ("Sigma_c_star_pp", P_Sigma_c_star_pp),
   ("Sigma_c_star_plus", P_Sigma_c_star_plus),
   ("Sigma_c_star_zero", P_Sigma_c_star_zero),
   ("Xi_c_star_plus", P_Xi_c_star_plus),
   ("Xi_c_star_zero", P_Xi_c_star_zero),
   ("Omega_c_star", P_Omega_c_star)]

noncomputable def DOUBLE_CHARM_PARTICLES_list : List (String × Particle) :=
  [("Xi_cc_pp", P_Xi_cc_pp)]

noncomputable def BOTTOM_PARTICLES_list : List (String × Particle) :=
  [("Lambda_b", P_Lambda_b),
   ("Sigma_b_plus", P_Sigma_b_plus),
   ("Sigma_b_minus", P_Sigma_b_minus),
   ("Sigma_b_star_plus", P_Sigma_b_star_plus),
   ("Sigma_b_star_minus", P_Sigma_b_star_minus),
   ("Xi_b_zero", P_Xi_b_zero),
   ("Xi_b_minus", P_Xi_b_minus),
   ("Omega_b", P_Omega_b)]

/-- `ALL_PARTICLES` of `src/generate_baryon_tree.py`: the merged table, in
dict-merge order (light, charm, bottom, double-charm); no key occurs twice. -/
noncomputable def ALL_PARTICLES : List (String × Particle) :=
  PARTICLES_list ++ CHARM_PARTICLES_list ++ BOTTOM_PARTICLES_list ++ DOUBLE_CHARM_PARTICLES_list

/-- Python dict lookup `ALL_PARTICLES.get(key)` / `key in ALL_PARTICLES`. -/
noncomputable def lookupParticle (key : String) : Option Particle :=
  (ALL_PARTICLES.find? (fun pr => pr.1 == key)).map (fun pr => pr.2)

/-! ## The `MagneticMoment` dataclass of `src/data/magnetic.py` -/

structure MagneticMoment where
  name : String
  symbol : String
  latex_symbol : String
  mu_exp : ℝ
  numerator : ℤ
  pi_power : ℤ
  denominator : ℤ := 1
  charge : ℤ := 0
  strangeness : ℤ := 0
  family : String := ""

/-- `MagneticMoment.mu_calc`: `Nπ^(-k)/D` when `pi_power = k < 0`, `N/D` when
`k = 0`, `N/π^k` when `k > 0`. -/
noncomputable def MagneticMoment.mu_calc (m : MagneticMoment) : ℝ :=
  if m.pi_power < 0 then
    (m.numerator : ℝ) * PI ^ (-m.pi_power).toNat / (m.denominator : ℝ)
  else if m.pi_power = 0 then
    (m.numerator : ℝ) / (m.denominator : ℝ)
  else
    (m.numerator : ℝ) / PI ^ m.pi_power.toNat

noncomputable def MM_p : MagneticMoment :=
  { name := "Proton", symbol := "p", latex_symbol := "p",
    mu_exp := 2.7928473508, numerator := 8, pi_power := -1, denominator := 9,
    charge := 1, strangeness := 0, family := "positive" }

noncomputable def MM_Sigma_plus : MagneticMoment :=
  { name := "Sigma+", symbol := "Σ⁺", latex_symbol := "\\Sigma^+",
    mu_exp := 2.458, numerator := 7, pi_power := -1, denominator := 9,
    charge := 1, strangeness := -1, family := "positive" }

noncomputable def MM_n : MagneticMoment :=
  { name := "Neutron", symbol := "n", latex_symbol := "n",
    mu_exp := -1.9130427, numerator := -6, pi_power := 1,
    charge := 0, strangeness := 0, family := "6-chain" }

noncomputable def MM_Lambda : MagneticMoment :=
  { name := "Lambda", symbol := "Λ", latex_symbol := "\\Lambda",
    mu_exp := -0.613, numerator := -6, pi_power := 2,
    charge := 0, strangeness := -1, family := "6-chain" }

noncomputable def MM_Xi0 : MagneticMoment :=
  { name := "Xi0", symbol := "Ξ⁰", latex_symbol := "\\Xi^0",
    mu_exp := -1.250, numerator := -4, pi_power := 1,
    charge := 0, strangeness := -2, family := "neutral" }

noncomputable def MM_Sigma_minus : MagneticMoment :=
  { name := "Sigma-", symbol := "Σ⁻", latex_symbol := "\\Sigma^-",
    mu_exp := -1.160, numerator := -36, pi_power := 3,
    charge := -1, strangeness := -1, family := "6-chain" }

noncomputable def MM_Xi_minus : MagneticMoment :=
  { name := "Xi-", symbol := "Ξ⁻", latex_symbol := "\\Xi^-",
    mu_exp := -0.6507, numerator := -20, pi_power := 3,
    charge := -1, strangeness := -2, family := "20-family" }

noncomputable def MM_Omega : MagneticMoment :=
  { name := "Omega", symbol := "Ω⁻", latex_symbol := "\\Omega^-",
    mu_exp := -2.02, numerator := -20, pi_power := 2,
    charge := -1, strangeness := -3, family := "20-family" }

noncomputable def MAGNETIC_MOMENTS : List (String × MagneticMoment) :=
  [("p", MM_p), ("Sigma+", MM_Sigma_plus), ("n", MM_n), ("Lambda", MM_Lambda),
   ("Xi0", MM_Xi0), ("Sigma-", MM_Sigma_minus), ("Xi-", MM_Xi_minus), ("Omega", MM_Omega)]

/-! ## The diff formatter of `src/generate_baryon_tree.py` -/

/-- Python `int(q)`: truncation toward zero (`Int.div` is T-division). -/
def pyTrunc (q : ℚ) : ℤ :=
  q.num.tdiv (q.den : ℤ)

/-- `format_coeff` (lines 195-215): format one coefficient, omitting magnitude
1, with spaces around operators for non-first terms; `None` for zero. -/
def format_coeff (c : ℚ) (power_str : String) (is_first : Bool) : Option String :=
  if c = 0 then none
  else
    let c_int : ℤ := pyTrunc c
    match is_first with
    | true =>
      if c_int = 1 then some power_str
      else if c_int = -1 then some ("-" ++ power_str)
      else some (toString c_int ++ power_str)
    | false =>
      if c_int = 1 then some (" + " ++ power_str)
      else if c_int = -1 then some (" - " ++ power_str)
      else if c_int > 0 then some (" + " ++ toString c_int ++ power_str)
      else some (" - " ++ toString c_int.natAbs ++ power_str)

/-- `format_diff` (lines 252-271): what the particle adds beyond its parent.
The `c6` term is emitted unconditionally (there is no `parent_c6` parameter);
the other powers are diffed against the parent coefficients. -/
def format_diff (p : Particle) (parent_c5 parent_c4 parent_c3 parent_c2 : ℚ) : String :=
  let parts0 : List String := []
  let parts1 := if p.c6 ≠ 0 then parts0 ++ (format_coeff p.c6 "π⁶" (parts0.length == 0)).toList else parts0
  let diff_c5 := p.c5 - parent_c5
  let parts2 := if diff_c5 ≠ 0 then parts1 ++ (format_coeff diff_c5 "π⁵" (parts1.length == 0)).toList else parts1
  let diff_c4 := p.c4 - parent_c4
  let parts3 := if diff_c4 ≠ 0 then parts2 ++ (format_coeff diff_c4 "π⁴" (parts2.length == 0)).toList else parts2
  let diff_c3 := p.c3 - parent_c3
  let parts4 := if diff_c3 ≠ 0 then parts3 ++ (format_coeff diff_c3 "π³" (parts3.length == 0)).toList else parts3
  let diff_c2 := p.c2 - parent_c2
  let parts5 := if diff_c2 ≠ 0 then parts4 ++ (format_coeff diff_c2 "π²" (parts4.length == 0)).toList else parts4
  if parts5.isEmpty then "" else String.join (parts5.filter (fun s => s ≠ ""))

set_option linter.unusedVariables false in
/-- `format_correction` (lines 274-276): disabled in the source — corrections
are not shown in tree nodes; it returns the empty string for every input. -/
def format_correction (corr : Option String) (has_poly : Bool) : String :=
  ""

/-- Refinement-side definition, following the spec's words for the FIRST
emitted term: no leading sign when `d = 1`, a bare minus when `d = -1`,
otherwise the integer (no leading `+`) before the power label. -/
def specFirstTerm (d : ℤ) (label : String) : String :=
  if d = 1 then label
  else if d = -1 then "-" ++ label
  else toString d ++ label

/-- Refinement-side definition, following the spec's words for a NON-first
emitted term: `" + <label>"` for `d = 1`, `" - <label>"` for `d = -1`,
`" + <d><label>"` for `d > 1`, `" - <|d|><label>"` for `d < -1`. -/
def specLaterTerm (d : ℤ) (label : String) : String :=
  if d = 1 then " + " ++ label
  else if d = -1 then " - " ++ label
  else if d > 1 then " + " ++ toString d ++ label
  else " - " ++ toString d.natAbs ++ label

/-- The coefficient set `{5:8, 4:6, 3:-1}` of the spec's concrete example. -/
def c3_example : Particle :=
  { name := "", symbol := "", latex_symbol := "", mass_exp := 0, node_id := "",
    c5 := 8, c4 := 6, c3 := -1 }

theorem pyTrunc_intCast (d : ℤ) : pyTrunc (d : ℚ) = d := by
  simp [pyTrunc, Int.tdiv_one]


/-- Claim C10: the proton magnetic-moment entry (numerator 8, denominator 9,
`pi_power = -1`, form `Nπ/D`) evaluates to `8·π/9 ≈ 2.7925`, matching the
documented ~2.79 μN (the experimental 2.7928473508) within tolerance. -/
theorem proton_magnetic_moment :
    MM_p.mu_calc = 8 * Real.pi / 9 ∧
      |MM_p.mu_calc - 2.7925| < 0.001 ∧
      |MM_p.mu_calc - MM_p.mu_exp| < 0.001 := by
  have hcalc : MM_p.mu_calc = 8 * Real.pi / 9 := by
    simp [MagneticMoment.mu_calc, MM_p, PI]
  have hexp : MM_p.mu_exp = 2.7928473508 := rfl
  have h1 := Real.pi_gt_d6
  have h2 := Real.pi_lt_d6
  refine ⟨hcalc, ?_, ?_⟩
  · rw [hcalc, abs_lt]
    constructor <;> nlinarith
  · rw [hcalc, hexp, abs_lt]
    constructor <;> nlinarith

/-- Claim C3: the sign-rendering rules of the diff formatter.  The first
emitted term renders `1` as the bare power label, `-1` as a leading minus,
any other integer without a leading `+`; a non-first term renders with the
embedded ` + `/` - ` separators; fragments concatenate with no extra
separators, and `{5:8, 4:6, 3:-1}` against parent `{5:8}` renders as
`"6π⁴ - π³"`. -/
theorem sign_rendering :
    (∀ (label : String) (d : ℤ), d ≠ 0 →
        format_coeff (d : ℚ) label true = some (specFirstTerm d label) ∧
          format_coeff (d : ℚ) label false = some (specLaterTerm d label)) ∧
      format_diff c3_example 8 0 0 0 = "6π⁴ - π³" := by
  constructor
  · intro label d hd
    have hz : ((d : ℚ)) ≠ 0 := Int.cast_ne_zero.mpr hd
    have ht : pyTrunc (d : ℚ) = d := pyTrunc_intCast d
    constructor
    · simp only [format_coeff, if_neg hz, ht, specFirstTerm]
      split_ifs <;> rfl
    · simp only [format_coeff, if_neg hz, ht, specLaterTerm]
      split_ifs <;> first | rfl | omega
  · norm_num [format_diff, format_coeff, pyTrunc, c3_example]
    decide

/-- Witness for C3 at concrete inputs. -/
theorem sign_rendering_witness :
    (6 : ℤ) ≠ 0 ∧ format_coeff ((6 : ℤ) : ℚ) "π⁴" true = some (specFirstTerm 6 "π⁴") ∧
      format_coeff (((-1) : ℤ) : ℚ) "π³" false = some (specLaterTerm (-1) "π³") :=
  ⟨by decide, (sign_rendering.1 "π⁴" 6 (by decide)).1, (sign_rendering.1 "π³" (-1) (by decide)).2⟩

/-- Claim C8: for every particle of the tables, formatting its coefficient
diff against itself as its own parent yields the empty polynomial string.
(This relies on every table entry having `c6 = 0`: `format_diff` re-emits a
non-zero `c6` unconditionally, since it takes no `parent_c6`.) -/
theorem diff_self_is_empty :
    ∀ pr ∈ ALL_PARTICLES, format_diff pr.2 pr.2.c5 pr.2.c4 pr.2.c3 pr.2.c2 = "" := by
  intro pr h
  fin_cases h <;>
    norm_num [format_diff, format_coeff, pyTrunc, P_proton, P_neutron, P_Lambda,
      P_Sigma_plus, P_Sigma_zero, P_Sigma_minus, P_Xi_zero, P_Xi_minus, P_Delta,
      P_Sigma_star_plus, P_Sigma_star_zero, P_Sigma_star_minus, P_Xi_star_zero,
      P_Xi_star_minus, P_Omega, P_Lambda_c, P_Sigma_c_pp, P_Sigma_c_plus,
      P_Sigma_c_zero, P_Xi_c_plus, P_Xi_c_zero, P_Omega_c, P_Sigma_c_star_pp,
      P_Sigma_c_star_plus, P_Sigma_c_star_zero, P_Xi_c_star_plus, P_Xi_c_star_zero,
      P_Omega_c_star, P_Xi_cc_pp, P_Lambda_b, P_Sigma_b_plus, P_Sigma_b_minus,
      P_Sigma_b_star_plus, P_Sigma_b_star_minus, P_Xi_b_zero, P_Xi_b_minus, P_Omega_b]

/-- Witness for C8 at the proton. -/
theorem diff_self_is_empty_witness :
    ("proton", P_proton) ∈ ALL_PARTICLES ∧
      format_diff P_proton P_proton.c5 P_proton.c4 P_proton.c3 P_proton.c2 = "" :=
  ⟨by simp [ALL_PARTICLES, PARTICLES_list],
   diff_self_is_empty ("proton", P_proton) (by simp [ALL_PARTICLES, PARTICLES_list])⟩

/-! ## String helpers modelling the Python string operations used by
`latex_to_display` (`src/generate_baryon_tree.py`, lines 105-152).
They operate on character lists so that closed instances evaluate. -/

def openBraceChar : Char := Char.ofNat 123

def closeBraceChar : Char := Char.ofNat 125

/-- Python `str.strip()`: drop whitespace at both ends. -/
def pyStrip (s : String) : String :=
  ⟨((s.data.dropWhile Char.isWhitespace).reverse.dropWhile Char.isWhitespace).reverse⟩

def listStartsWith : List Char → List Char → Bool
  | _, [] => true
  | [], _ :: _ => false
  | c :: cs, p :: ps => p == c && listStartsWith cs ps

def listContainsSub : List Char → List Char → Bool
  | [], pat => pat.isEmpty
  | c :: t, pat => listStartsWith (c :: t) pat || listContainsSub t pat

/-- Python `pat in s`. -/
def containsSub (s pat : String) : Bool :=
  listContainsSub s.data pat.data

/-- `re.match(r'^[+-]?\d+$', s)`: optional sign then at least one digit. -/
def matchesSignedInt (l : List Char) : Bool :=
  let digits : List Char → Bool := fun t => !t.isEmpty && t.all Char.isDigit
  match l with
  | [] => false
  | c :: rest => if c == '+' || c == '-' then digits rest else digits l

/-- The optional `([+-])?` sign group: the matched sign, defaulting to `"+"`
(`m.group(1) or '+'`), and the remaining input. -/
def splitSign (l : List Char) : String × List Char :=
  match l with
  | [] => ("+", [])
  | c :: rest =>
    if c == '+' then ("+", rest)
    else if c == '-' then ("-", rest)
    else ("+", l)

/-- `[^}]+` followed by `}`: the (non-empty, brace-free) group content and the
input after the closing brace. -/
def splitAtCloseBrace : List Char → Option (List Char × List Char)
  | [] => none
  | c :: rest =>
    if c == closeBraceChar then some ([], rest)
    else
      match splitAtCloseBrace rest with
      | some (pre, post) => some (c :: pre, post)
      | none => none

def stripHead (l pat : List Char) : Option (List Char) :=
  if listStartsWith l pat then some (l.drop pat.length) else none

/-- `\\frac\{([^}]+)\}\{([^}]+)\}`: numerator, denominator, rest of input. -/
def parseFrac (l : List Char) : Option (String × String × List Char) :=
  match stripHead l ("\\frac".data ++ [openBraceChar]) with
  | none => none
  | some l1 =>
    match splitAtCloseBrace l1 with
    | none => none
    | some (num, l2) =>
      if num.isEmpty then none
      else
        match stripHead l2 [openBraceChar] with
        | none => none
        | some l3 =>
          match splitAtCloseBrace l3 with
          | none => none
          | some (den, l4) =>
            if den.isEmpty then none else some (⟨num⟩, ⟨den⟩, l4)

/-- Python `.replace('\\pi', 'π')`, left-to-right, non-overlapping. -/
def replacePiChars : List Char → List Char
  | '\\' :: 'p' :: 'i' :: rest => 'π' :: replacePiChars rest
  | c :: rest => c :: replacePiChars rest
  | [] => []

def replacePi (s : String) : String :=
  ⟨replacePiChars s.data⟩

def startsWithSign (s : String) : Bool :=
  match s.data with
  | c :: _ => c == '+' || c == '-'
  | [] => false

/-- The hard-coded Ω literal `-\frac{6}{5}\left(\pi - e^{-\pi}\right)`. -/
def omegaCorrectionLatex : String :=
  "-\\frac\x7b6\x7d\x7b5\x7d\\left(\\pi - e^\x7b-\\pi\x7d\\right)"

/-- The hard-coded Ξ⁰ literal `-\pi - \frac{1}{\pi}`. -/
def xiZeroCorrectionLatex : String :=
  "-\\pi - \\frac\x7b1\x7d\x7b\\pi\x7d"

/-- The `e^{-\pi}` tail of the fraction-times-exponential pattern. -/
def expNegPiTail : List Char :=
  ("e^\x7b-\\pi\x7d" : String).data

/-- `latex_to_display` (lines 105-152): convert a simple LaTeX correction to a
compact Unicode display; `None` for empty input and for complex formulas
(containing `\left`/`\right`) other than the hard-coded Ω literal. -/
def latex_to_display (latex : String) : Option String :=
  if latex = "" then none
  else
    let s := pyStrip latex
    if s = omegaCorrectionLatex then some "-(6/5)(π - e⁻ᵖⁱ)"
    else if containsSub latex "\\left" || containsSub latex "\\right" then none
    else if s = xiZeroCorrectionLatex then some "-π - 1/π"
    else if matchesSignedInt s.data then
      some (if startsWithSign s then s else "+" ++ s)
    else
      let sl := splitSign s.data
      match parseFrac sl.2 with
      | some (num, den, rest) =>
        if rest.isEmpty then some (sl.1 ++ replacePi num ++ "/" ++ replacePi den)
        else if rest = expNegPiTail then some (sl.1 ++ "(" ++ num ++ "/" ++ den ++ ")e⁻ᵖⁱ")
        else none
      | none => none

/-- `get_correction_display` (lines 155-160). -/
noncomputable def get_correction_display (key : String) : Option String :=
  match lookupParticle key with
  | none => none
  | some p => latex_to_display p.correction_latex

/-- `get_correction_value` (lines 163-167). -/
noncomputable def get_correction_value (key : String) : ℝ :=
  match lookupParticle key with
  | none => 0.0
  | some p => p.correction

/-! ## `UNCERTAINTIES` and `compute_mass_data` (lines 66-103 and 175-192) -/

def UNCERTAINTIES : List (String × ℚ) :=
  [("proton", 0.00000029e-3), ("neutron", 0.00000054e-3), ("Lambda", 0.006),
   ("Sigma_plus", 0.03), ("Sigma_zero", 0.03), ("Sigma_minus", 0.04),
   ("Sigma_star_plus", 0.9), ("Sigma_star_zero", 0.9), ("Sigma_star_minus", 0.9),
   ("Xi_zero", 0.08), ("Xi_minus", 0.06), ("Xi_star_zero", 0.8),
   ("Xi_star_minus", 0.9), ("Omega", 0.21), ("Delta", 2.0), ("Lambda_c", 0.14),
   ("Sigma_c_pp", 0.14), ("Sigma_c_plus", 0.4), ("Sigma_c_zero", 0.14),
   ("Sigma_c_star_pp", 0.4), ("Sigma_c_star_plus", 0.5), ("Sigma_c_star_zero", 0.4),
   ("Xi_c_plus", 0.31), ("Xi_c_zero", 0.28), ("Xi_c_star_plus", 0.5),
   ("Xi_c_star_zero", 0.5), ("Omega_c", 0.21), ("Omega_c_star", 0.5),
   ("Xi_cc_pp", 0.4), ("Lambda_b", 0.06), ("Sigma_b_plus", 0.5),
   ("Sigma_b_minus", 0.5), ("Xi_b_zero", 0.4), ("Xi_b_minus", 0.4),
   ("Omega_b", 0.22)]

def lookupUnc (key : String) : Option ℚ :=
  (UNCERTAINTIES.find? (fun pr => pr.1 == key)).map (fun pr => pr.2)

/-- `UNCERTAINTIES.get(unc_key, 1.0)`. -/
def uncGet (key : String) : ℚ :=
  (lookupUnc key).getD 1.0

structure MassData where
  calc_mev : ℝ
  base_mev : ℝ
  corr_mev : ℝ
  error_kev : ℝ
  sigma : ℝ
  uncertainty : ℚ

/-- `compute_mass_data` (lines 175-192); the Python locals `calc_mev`,
`error_mev = calc_mev - exp_mev` and `unc` are inlined. -/
noncomputable def compute_mass_data (p : Particle) (unc_key : String) : MassData :=
  { calc_mev := p.mass_mev,
    base_mev := p.mass_base * M_E,
    corr_mev :=
      match p.correction_func with
      | some _ => p.correction * M_E
      | none => 0,
    error_kev := (p.mass_mev - p.mass_exp) * 1000,
    sigma :=
      if uncGet unc_key > 0 then |p.mass_mev - p.mass_exp| / (uncGet unc_key : ℝ) else 0,
    uncertainty := uncGet unc_key }

/-! ## The proton node of `generate_light_baryon_data` (lines 294-313) -/

/-- The proton polynomial diff against the root node `root6` (`parent_c5=6`). -/
noncomputable def protonPolyDiff : String :=
  format_diff P_proton 6 0 0 0

/-- `diff_p = poly_p + format_correction(corr_p, has_poly=bool(poly_p))`. -/
noncomputable def protonDiffDisplay : String :=
  protonPolyDiff ++ format_correction (get_correction_display "proton") (!(protonPolyDiff == ""))

/-- `'sublabel': diff_p if diff_p else ''`. -/
noncomputable def protonSublabel : String :=
  if protonDiffDisplay ≠ "" then protonDiffDisplay else ""

/-! ## The cycle (tree) declarations of `src/data/cycle.py` -/

structure CycleNode where
  label : String
  sublabel : String
  formula : String
  c5 : ℚ := 0
  c4 : ℚ := 0
  c3 : ℚ := 0
  c2 : ℚ := 0
  strangeness : ℤ := 0
  description : String
  parent : Option String
  particles : List String
  resonances : List String
  deriving DecidableEq

structure CycleTable where
  name : String
  root : String
  nodes : List (String × CycleNode)
  edges : List (String × String)
  deriving DecidableEq

/-- `get_node` (lines 326-328): `cycle['nodes'].get(node_id)` — a plain dict
lookup returning `None` when the id is not declared; it never raises. -/
def get_node (cycle : CycleTable) (node_id : String) : Option CycleNode :=
  (cycle.nodes.find? (fun pr => pr.1 == node_id)).map (fun pr => pr.2)

/-- `get_particles_for_node` (lines 331-334): empty list when the node id does
not resolve. -/
def get_particles_for_node (cycle : CycleTable) (node_id : String) : List String :=
  match get_node cycle node_id with
  | some node => node.particles
  | none => []

/-- `get_resonances_for_node` (lines 337-340). -/
def get_resonances_for_node (cycle : CycleTable) (node_id : String) : List String :=
  match get_node cycle node_id with
  | some node => node.resonances
  | none => []

/-- `get_children` (lines 343-349): scan the declared nodes for those whose
`parent` field equals the given id, in declaration order. -/
def get_children (cycle : CycleTable) (node_id : String) : List String :=
  (cycle.nodes.filter (fun pr => pr.2.parent == some node_id)).map (fun pr => pr.1)
def N_LIGHT_root6 : CycleNode :=
  { label := "6π⁵",
    sublabel := "S=0",
    formula := "6π⁵",
    c5 := 6,
    strangeness := 0,
    description := "Light baryon base (S=0)",
    parent := none,
    particles := ["proton", "neutron"],
    resonances := [] }

def N_LIGHT_vD6pi4 : CycleNode :=
  { label := "+6π⁴",
    sublabel := "Δ base",
    formula := "6π⁵ + 6π⁴",
    c5 := 6,
    c4 := 6,
    strangeness := 0,
    description := "Delta decuplet base (6π⁴)",
    parent := some "root6",
    particles := ["Delta"],
    resonances := ["Delta_1700"] }

def N_LIGHT_v7 : CycleNode :=
  { label := "+π⁵",
    sublabel := "S=-1",
    formula := "7π⁵",
    c5 := 7,
    strangeness := -1,
    description := "Strangeness -1 level",
    parent := some "root6",
    particles := ["Lambda"],
    resonances := ["Lambda_1405"] }

def N_LIGHT_vS6pi3 : CycleNode :=
  { label := "+6π³",
    sublabel := "Σ base",
    formula := "7π⁵ + 6π³",
    c5 := 7,
    c3 := 6,
    strangeness := -1,
    description := "Sigma octet base (6π³)",
    parent := some "v7",
    particles := ["Sigma_plus", "Sigma_zero", "Sigma_minus"],
    resonances := ["Roper"] }

def N_LIGHT_vSs6pi4 : CycleNode :=
  { label := "+6π⁴",
    sublabel := "Σ* base",
    formula := "7π⁵ + 6π⁴",
    c5 := 7,
    c4 := 6,
    strangeness := -1,
    description := "Sigma* decuplet base (6π⁴)",
    parent := some "v7",
    particles := ["Sigma_star_plus", "Sigma_star_zero", "Sigma_star_minus"],
    resonances := ["N_1535"] }

def N_LIGHT_v8 : CycleNode :=
  { label := "+π⁵",
    sublabel := "S=-2",
    formula := "8π⁵",
    c5 := 8,
    strangeness := -2,
    description := "Strangeness -2 level (Xi)",
    parent := some "v7",
    particles := [],
    resonances := [] }

def N_LIGHT_vXpi4pi3 : CycleNode :=
  { label := "+π⁴+π³",
    sublabel := "Ξ base",
    formula := "8π⁵ + π⁴ + π³",
    c5 := 8,
    c4 := 1,
    c3 := 1,
    strangeness := -2,
    description := "Xi octet base",
    parent := some "v8",
    particles := ["Xi_zero", "Xi_minus"],
    resonances := [] }

def N_LIGHT_vXs6pi4 : CycleNode :=
  { label := "+6π⁴-π³",
    sublabel := "Ξ* base",
    formula := "8π⁵ + 6π⁴ - π³",
    c5 := 8,
    c4 := 6,
    c3 := -1,
    strangeness := -2,
    description := "Xi* decuplet base",
    parent := some "v8",
    particles := ["Xi_star_zero", "Xi_star_minus"],
    resonances := ["Lambda_1520"] }

def N_LIGHT_v9 : CycleNode :=
  { label := "+π⁵",
    sublabel := "S=-3",
    formula := "9π⁵",
    c5 := 9,
    strangeness := -3,
    description := "Strangeness -3 level (Omega)",
    parent := some "v8",
    particles := [],
    resonances := [] }

def N_LIGHT_vOm6pi4 : CycleNode :=
  { label := "+6π⁴-2π³",
    sublabel := "Ω base",
    formula := "9π⁵ + 6π⁴ - 2π³",
    c5 := 9,
    c4 := 6,
    c3 := -2,
    strangeness := -3,
    description := "Omega decuplet apex",
    parent := some "v9",
    particles := ["Omega"],
    resonances := ["N_1680", "Delta_1700"] }

def LIGHT_CYCLE : CycleTable :=
  { name := "Light Baryons",
    root := "root6",
    nodes := [("root6", N_LIGHT_root6),
      ("vD6pi4", N_LIGHT_vD6pi4),
      ("v7", N_LIGHT_v7),
      ("vS6pi3", N_LIGHT_vS6pi3),
      ("vSs6pi4", N_LIGHT_vSs6pi4),
      ("v8", N_LIGHT_v8),
      ("vXpi4pi3", N_LIGHT_vXpi4pi3),
      ("vXs6pi4", N_LIGHT_vXs6pi4),
      ("v9", N_LIGHT_v9),
      ("vOm6pi4", N_LIGHT_vOm6pi4)],
    edges := [("root6", "vD6pi4"), ("root6", "v7"), ("v7", "vS6pi3"), ("v7", "vSs6pi4"), ("v7", "v8"), ("v8", "vXpi4pi3"), ("v8", "vXs6pi4"), ("v8", "v9"), ("v9", "vOm6pi4")] }

def N_CHARM_root14 : CycleNode :=
  { label := "14π⁵",
    sublabel := "C=1",
    formula := "14π⁵",
    c5 := 14,
    strangeness := 0,
    description := "Charm baryon base (14 = [3]π)",
    parent := none,
    particles := ["Lambda_c"],
    resonances := [] }

def N_CHARM_vSc : CycleNode :=
  { label := "+5π⁴+π³",
    sublabel := "Σc base",
    formula := "14π⁵ + 5π⁴ + π³",
    c5 := 14,
    c4 := 5,
    c3 := 1,
    strangeness := 0,
    description := "Sigma_c octet base",
    parent := some "root14",
    particles := ["Sigma_c_pp", "Sigma_c_plus", "Sigma_c_zero"],
    resonances := [] }

def N_CHARM_vScs : CycleNode :=
  { label := "+6π⁴+2π³",
    sublabel := "Σc* base",
    formula := "14π⁵ + 6π⁴ + 2π³",
    c5 := 14,
    c4 := 6,
    c3 := 2,
    strangeness := 0,
    description := "Sigma_c* decuplet base (6π⁴)",
    parent := some "root14",
    particles := ["Sigma_c_star_pp", "Sigma_c_star_plus", "Sigma_c_star_zero"],
    resonances := [] }

def N_CHARM_v15 : CycleNode :=
  { label := "+π⁵",
    sublabel := "S=-1",
    formula := "15π⁵",
    c5 := 15,
    strangeness := -1,
    description := "Charm-strange level",
    parent := some "root14",
    particles := [],
    resonances := [] }

def N_CHARM_vXc : CycleNode :=
  { label := "+2π⁴+π³",
    sublabel := "Ξc base",
    formula := "15π⁵ + 2π⁴ + π³",
    c5 := 15,
    c4 := 2,
    c3 := 1,
    strangeness := -1,
    description := "Xi_c octet base",
    parent := some "v15",
    particles := ["Xi_c_plus", "Xi_c_zero"],
    resonances := [] }

def N_CHARM_vXcs : CycleNode :=
  { label := "+6π⁴",
    sublabel := "Ξc* base",
    formula := "15π⁵ + 6π⁴",
    c5 := 15,
    c4 := 6,
    strangeness := -1,
    description := "Xi_c* decuplet base (6π⁴)",
    parent := some "v15",
    particles := ["Xi_c_star_plus", "Xi_c_star_zero"],
    resonances := [] }

def N_CHARM_v16 : CycleNode :=
  { label := "+π⁵",
    sublabel := "S=-2",
    formula := "16π⁵",
    c5 := 16,
    strangeness := -2,
    description := "Double-strange charm level",
    parent := some "v15",
    particles := ["Omega_c", "Omega_c_star"],
    resonances := [] }

def CHARM_CYCLE : CycleTable :=
  { name := "Charm Baryons",
    root := "root14",
    nodes := [("root14", N_CHARM_root14),
      ("vSc", N_CHARM_vSc),
      ("vScs", N_CHARM_vScs),
      ("v15", N_CHARM_v15),
      ("vXc", N_CHARM_vXc),
      ("vXcs", N_CHARM_vXcs),
      ("v16", N_CHARM_v16)],
    edges := [("root14", "vSc"), ("root14", "vScs"), ("root14", "v15"), ("v15", "vXc"), ("v15", "vXcs"), ("v15", "v16")] }

def N_BOTTOM_root36 : CycleNode :=
  { label := "36π⁵",
    sublabel := "B=-1",
    formula := "36π⁵",
    c5 := 36,
    strangeness := 0,
    description := "Bottom baryon base (36 = 6²)",
    parent := none,
    particles := ["Lambda_b", "Sigma_b_plus", "Sigma_b_minus"],
    resonances := [] }

def N_BOTTOM_v37 : CycleNode :=
  { label := "+π⁵",
    sublabel := "S=-1",
    formula := "37π⁵",
    c5 := 37,
    strangeness := -1,
    description := "Bottom-strange level",
    parent := some "root36",
    particles := ["Xi_b_zero", "Xi_b_minus"],
    resonances := [] }

def N_BOTTOM_v38 : CycleNode :=
  { label := "+π⁵",
    sublabel := "S=-2",
    formula := "38π⁵",
    c5 := 38,
    strangeness := -2,
    description := "Double-strange bottom level",
    parent := some "v37",
    particles := ["Omega_b"],
    resonances := [] }

def BOTTOM_CYCLE : CycleTable :=
  { name := "Bottom Baryons",
    root := "root36",
    nodes := [("root36", N_BOTTOM_root36),
      ("v37", N_BOTTOM_v37),
      ("v38", N_BOTTOM_v38)],
    edges := [("root36", "v37"), ("v37", "v38")] }
/-- `get_all_cycles` (lines 321-323). -/
def get_all_cycles : List CycleTable :=
  [LIGHT_CYCLE, CHARM_CYCLE, BOTTOM_CYCLE]

/-- A synthetic cycle with a dangling parent id (`"ghost"` is declared by no
node) and a particle id (`"nobody"`) absent from the particle tables, used to
exercise the builder's behaviour on unresolvable references. -/
def danglingNodeRoot : CycleNode :=
  { label := "r", sublabel := "", formula := "", description := "root",
    parent := none, particles := [], resonances := [] }

def danglingNodeX : CycleNode :=
  { label := "x", sublabel := "", formula := "", description := "dangling",
    parent := some "ghost", particles := ["nobody"], resonances := [] }

def danglingCycle : CycleTable :=
  { name := "Dangling", root := "root",
    nodes := [("root", danglingNodeRoot), ("x", danglingNodeX)],
    edges := [("ghost", "x")] }

/-! ## Claim theorems (second batch) -/

theorem uncertainties_pos : ∀ pr ∈ UNCERTAINTIES, 0 < pr.2 := by
  intro pr h
  fin_cases h <;> norm_num

theorem uncGet_pos (k : String) : 0 < uncGet k := by
  unfold uncGet lookupUnc
  cases hf : UNCERTAINTIES.find? (fun pr => pr.1 == k) with
  | none => norm_num
  | some pr =>
    have hm := List.mem_of_find?_eq_some hf
    have hp := uncertainties_pos pr hm
    simpa using hp

theorem compute_mass_data_sigma (p : Particle) (k : String) (h : 0 < uncGet k) :
    (compute_mass_data p k).sigma = |p.mass_mev - p.mass_exp| / (uncGet k : ℝ) := by
  simp [compute_mass_data, h]

/-- Claim C9: for every particle node emitted for the renderer, the sigma
deviation is `|error_mev|` divided by the uncertainty from the static table,
with default 1.0 MeV for ids absent from the table. -/
theorem sigma_deviation :
    (∀ key : String, lookupUnc key = none → uncGet key = 1) ∧
      ∀ pr ∈ ALL_PARTICLES,
        (compute_mass_data pr.2 pr.1).sigma =
          |pr.2.mass_mev - pr.2.mass_exp| / (uncGet pr.1 : ℝ) := by
  constructor
  · intro key h
    norm_num [uncGet, h]
  · intro pr _
    exact compute_mass_data_sigma pr.2 pr.1 (uncGet_pos pr.1)

/-- Witness for C9: the proton (present in the uncertainty table) and the
`Sigma_b_star_plus` key (absent, so the default 1.0 applies). -/
theorem sigma_deviation_witness :
    lookupUnc "Sigma_b_star_plus" = none ∧ uncGet "Sigma_b_star_plus" = 1 ∧
      ("proton", P_proton) ∈ ALL_PARTICLES ∧
      (compute_mass_data P_proton "proton").sigma =
        |P_proton.mass_mev - P_proton.mass_exp| / (uncGet "proton" : ℝ) :=
  ⟨rfl, sigma_deviation.1 "Sigma_b_star_plus" rfl,
   by simp [ALL_PARTICLES, PARTICLES_list],
   sigma_deviation.2 ("proton", P_proton) (by simp [ALL_PARTICLES, PARTICLES_list])⟩

/-- Claim C5 counterexample: a cycle whose node `"x"` carries the parent id
`"ghost"` that resolves to no declared node and the particle id `"nobody"`
with no particle-table entry.  No operation fails: `get_node` returns `None`,
`get_children` and `get_particles_for_node` return plain lists — the dangling
references are silently tolerated, and no error naming the offending id is
raised at build time (the builder has no failure channel at all). -/
theorem dangling_reference_not_rejected :
    danglingNodeX.parent = some "ghost" ∧
      get_node danglingCycle "ghost" = none ∧
      get_node danglingCycle "x" = some danglingNodeX ∧
      get_children danglingCycle "ghost" = ["x"] ∧
      get_particles_for_node danglingCycle "x" = ["nobody"] ∧
      (lookupParticle "nobody").isSome = false :=
  ⟨rfl, rfl, rfl, rfl, rfl, rfl⟩

/-- Claim C5, amended: the builder never raises — an unresolvable id simply
yields `None`/defaults — while in the three shipped cycles every declared
parent id resolves to a declared node and every referenced particle id has a
particle-table entry. -/
theorem cycle_references_resolve :
    (∀ cyc ∈ get_all_cycles, ∀ pr ∈ cyc.nodes,
        (∀ pid, pr.2.parent = some pid → (get_node cyc pid).isSome = true) ∧
          ∀ k ∈ pr.2.particles, (lookupParticle k).isSome = true) ∧
      ∀ (cyc : CycleTable) (nid : String),
        cyc.nodes.all (fun pr => pr.1 != nid) = true → get_node cyc nid = none := by
  constructor
  · decide
  · intro cyc nid h
    unfold get_node
    rw [List.find?_eq_none.mpr]
    · rfl
    · intro pr hm
      have h2 := List.all_eq_true.mp h pr hm
      simp only [bne_iff_ne, ne_eq] at h2
      simp [h2]

/-- Witness for the amended C5: the light cycle's `v7` node has parent
`root6`, which resolves; its particle `Lambda` is in the table; and an
undeclared id yields `None` from `get_node` on the dangling cycle. -/
theorem cycle_references_resolve_witness :
    ((get_node LIGHT_CYCLE "root6").isSome = true ∧
        (lookupParticle "Lambda").isSome = true) ∧
      get_node danglingCycle "ghost" = none :=
  ⟨⟨((cycle_references_resolve.1 LIGHT_CYCLE (by decide) ("v7", N_LIGHT_v7)
        (by decide)).1 "root6" (by decide)),
    ((cycle_references_resolve.1 LIGHT_CYCLE (by decide) ("v7", N_LIGHT_v7)
        (by decide)).2 "Lambda" (by decide))⟩,
   cycle_references_resolve.2 danglingCycle "ghost" (by decide)⟩

/-- Claim C6: every correction LaTeX string containing `\left` or `\right`
that does not strip to the hard-coded Ω literal parses to `None` (the parser
is total — it never raises and never guesses); the caller obtains no display
for the Δ correction while `compute_mass_data` still carries the evaluated
numeric correction `delta_corr × M_E`. -/
theorem unsupported_latex_display :
    (∀ s : String, (containsSub s "\\left" || containsSub s "\\right") = true →
        pyStrip s ≠ omegaCorrectionLatex → latex_to_display s = none) ∧
      get_correction_display "Delta" = none ∧
      (compute_mass_data P_Delta "Delta").corr_mev = delta_corr * M_E := by
  refine ⟨?_, rfl, rfl⟩
  intro s hc hs
  by_cases h1 : s = ""
  · rw [h1] at hc
    exact absurd hc (by decide)
  · simp only [latex_to_display, if_neg h1, if_neg hs, hc, eq_self_iff_true, if_true]

/-- Witness for C6: the Δ correction LaTeX contains `\left` and is not the Ω
literal, so the parser returns `None`. -/
theorem unsupported_latex_display_witness :
    (containsSub P_Delta.correction_latex "\\left" ||
        containsSub P_Delta.correction_latex "\\right") = true ∧
      pyStrip P_Delta.correction_latex ≠ omegaCorrectionLatex ∧
      latex_to_display P_Delta.correction_latex = none :=
  ⟨by decide, by decide,
   unsupported_latex_display.1 P_Delta.correction_latex (by decide) (by decide)⟩

/-- Claim C4 counterexample: the proton node has a correction display string
(`+(4/5)e⁻ᵖⁱ`, parsed from its LaTeX), yet its rendered sublabel is the EMPTY
string — not the standalone correction the claim requires — because
`format_correction` is disabled and returns `""` for every input. -/
theorem proton_sublabel_counterexample :
    get_correction_display "proton" = some "+(4/5)e⁻ᵖⁱ" ∧
      protonSublabel = "" ∧ protonSublabel ≠ "(4/5)e⁻ᵖⁱ" := by
  have hpoly : protonPolyDiff = "" := by
    norm_num [protonPolyDiff, format_diff, format_coeff, pyTrunc, P_proton]
  have hdisp : protonDiffDisplay = "" := by
    simp [protonDiffDisplay, hpoly, format_correction]
  refine ⟨rfl, ?_, ?_⟩
  · simp [protonSublabel, hdisp]
  · simp [protonSublabel, hdisp]

/-- Claim C4, amended: `format_correction` returns the empty string for every
input, so a node's rendered diff display equals its polynomial diff alone and
the correction display is never appended; the proton's polynomial diff
against the root (`parent_c5 = 6`) is empty, so its sublabel is the empty
string, with the parsed correction display carried only in the separate
`correction` field of the node. -/
theorem correction_not_in_sublabel :
    (∀ (corr : Option String) (has_poly : Bool), format_correction corr has_poly = "") ∧
      protonDiffDisplay = protonPolyDiff ∧
      protonPolyDiff = "" ∧ protonSublabel = "" ∧
      get_correction_display "proton" = some "+(4/5)e⁻ᵖⁱ" := by
  have hpoly : protonPolyDiff = "" := by
    norm_num [protonPolyDiff, format_diff, format_coeff, pyTrunc, P_proton]
  have hdisp : protonDiffDisplay = "" := by
    simp [protonDiffDisplay, hpoly, format_correction]
  exact ⟨fun _ _ => rfl, by rw [hdisp, hpoly], hpoly, by simp [protonSublabel, hdisp], rfl⟩
